import Mathlib

/-!
Shallow embedding of `streamlit_app.py`: the client-side session /
authentication state machine of a Streamlit front end driving a FastAPI
backend through five HTTP operations (register, login, fetch current user,
generate API key, access an API-key-protected resource).

The backend is an external collaborator: each HTTP request's outcome is an
input (`HttpOutcome`) to the embedded operation.  Session state mirrors the
four `st.session_state` fields; each button / form handler is a function
from the current state and the outcome(s) of the requests it issues to the
new state, the list of surfaced messages, and the list of gateway calls
actually issued.
-/

namespace StreamlitApp

/-- Outcome of one underlying HTTP request, as seen by the `try`/`except`
blocks of the helper functions: a parsed success payload, a
`requests.exceptions.RequestException` carrying a description, or any other
exception carrying a description. -/
inductive HttpOutcome (α : Type) where
  | ok (payload : α)
  | requestException (desc : String)
  | otherException (desc : String)
deriving DecidableEq, Repr

/-- True when the outcome is a success. -/
def HttpOutcome.isOk {α : Type} : HttpOutcome α → Bool
  | .ok _ => true
  | .requestException _ => false
  | .otherException _ => false

/-- Success payload of `POST /register`: JSON with a `username` field. -/
structure RegisterData where
  username : String
deriving DecidableEq, Repr

/-- Success payload of `POST /token`: JSON with an `access_token` field. -/
structure TokenData where
  access_token : String
deriving DecidableEq, Repr

/-- Success payload of `GET /users/me`: JSON with a `username` field. -/
structure UserInfo where
  username : String
deriving DecidableEq, Repr

/-- Success payload of `POST /users/me/generate-api-key`: JSON with a
`key_value` field. -/
structure KeyData where
  key_value : String
deriving DecidableEq, Repr

/-- Success payload of `GET /api-key-protected`: an arbitrary JSON payload,
kept opaque. -/
structure ProtectedData where
  payload : String
deriving DecidableEq, Repr

/-- Python `f"{x}"` of an optional string: `None` prints as `"None"`. -/
def pyStr : Option String → String
  | some s => s
  | none => "None"

/-- Python truthiness of an optional string: `None` and `""` are falsy. -/
def pyTruthy : Option String → Bool
  | some t => t != ""
  | none => false

/-- `register_user_api` (src lines 11-22): both exception handlers build
their message with a proper f-string interpolation of the exception. -/
def register_user_api (o : HttpOutcome RegisterData) :
    Option RegisterData × Option String :=
  match o with
  | .ok p => (some p, none)
  | .requestException d =>
      (none, some ("Error connecting to backend or invalid response: " ++ d))
  | .otherException d =>
      (none, some ("An unexpected error occurred: " ++ d))

/-- `login_user_api` (src lines 24-35): the `RequestException` handler
interpolates the exception, but the generic handler's f-string (line 35)
contains the literal letter `e`, not `{e}`. -/
def login_user_api (o : HttpOutcome TokenData) :
    Option TokenData × Option String :=
  match o with
  | .ok p => (some p, none)
  | .requestException d =>
      (none, some ("Error connecting to backend or invalid response: " ++ d))
  | .otherException _ =>
      (none, some "An unexpected error occurred: e")

/-- `get_current_user_api` (src lines 37-48): both handlers' f-strings
(lines 46 and 48) contain the literal letter `e`, not `{e}`, so the
exception text is dropped from the message. -/
def get_current_user_api (o : HttpOutcome UserInfo) :
    Option UserInfo × Option String :=
  match o with
  | .ok p => (some p, none)
  | .requestException _ =>
      (none, some "Error connecting to backend or invalid response: e")
  | .otherException _ =>
      (none, some "An unexpected error occurred: e")

/-- `generate_api_key_api` (src lines 50-61): both handlers' f-strings
(lines 59 and 61) contain the literal letter `e`, not `{e}`. -/
def generate_api_key_api (o : HttpOutcome KeyData) :
    Option KeyData × Option String :=
  match o with
  | .ok p => (some p, none)
  | .requestException _ =>
      (none, some "Error connecting to backend or invalid response: e")
  | .otherException _ =>
      (none, some "An unexpected error occurred: e")

/-- `get_protected_data_api` (src lines 63-74): both handlers' f-strings
(lines 72 and 74) contain the literal letter `e`, not `{e}`. -/
def get_protected_data_api (o : HttpOutcome ProtectedData) :
    Option ProtectedData × Option String :=
  match o with
  | .ok p => (some p, none)
  | .requestException _ =>
      (none, some "Error connecting to backend or invalid response: e")
  | .otherException _ =>
      (none, some "An unexpected error occurred: e")

/-- The four `st.session_state` fields (src lines 83-90). -/
structure SessionState where
  logged_in : Bool
  username : Option String
  access_token : Option String
  generated_api_key : Option String
deriving DecidableEq, Repr

/-- Initial session state (src lines 83-90): all fields unset. -/
def initState : SessionState :=
  { logged_in := false, username := none, access_token := none,
    generated_api_key := none }

/-- The spec's `authStatus` enumeration. -/
inductive AuthStatus where
  | ANONYMOUS
  | AUTHENTICATED
deriving DecidableEq, Repr

/-- `authStatus` as derived from the stored state: `logged_in` decides it. -/
def SessionState.authStatus (s : SessionState) : AuthStatus :=
  if s.logged_in then AuthStatus.AUTHENTICATED else AuthStatus.ANONYMOUS

/-- The spec's `KEY_READY` sub-state: authenticated with an `apiKey`
present locally. -/
def SessionState.keyReady (s : SessionState) : Bool :=
  s.logged_in && s.generated_api_key.isSome

/-- A message surfaced to the user, tagged by the Streamlit call used. -/
inductive Msg where
  | info (text : String)
  | success (text : String)
  | warning (text : String)
  | error (text : String)
  | write (text : String)
  | jsonOut (payload : String)
deriving DecidableEq, Repr

/-- An outbound HTTP request actually issued by a handler. -/
inductive GatewayCall where
  | register (username password : String)
  | token (username password : String)
  | usersMe (bearer : Option String)
  | generateApiKey (bearer : Option String)
  | apiKeyProtected (key : Option String)
deriving DecidableEq, Repr

/-- Result of running one handler: the new session state, the messages
surfaced in order, and the gateway calls issued in order. -/
structure OpResult where
  st : SessionState
  msgs : List Msg
  calls : List GatewayCall
deriving DecidableEq, Repr

/-- The single-quote character, used in the registration success message. -/
def apos : String := (Char.ofNat 39).toString

/-- Refresh Profile button handler (src lines 98-107): on success, write
the username; on failure, surface the session-might-have-expired error and
clear `logged_in`, `username` and `access_token` (but not
`generated_api_key`). -/
def refreshProfile (s : SessionState) (o : HttpOutcome UserInfo) : OpResult :=
  let r := get_current_user_api o
  match r.1 with
  | some ui =>
      { st := s,
        msgs := [Msg.write ("Username: " ++ ui.username)],
        calls := [GatewayCall.usersMe s.access_token] }
  | none =>
      { st := { s with logged_in := false, username := none,
                       access_token := none },
        msgs := [Msg.error ("Failed to fetch profile: " ++ pyStr r.2 ++
          ". Your session might have expired. Please log in again.")],
        calls := [GatewayCall.usersMe s.access_token] }

/-- Generate New API Key button handler (src lines 157-165): on success,
overwrite `generated_api_key`; on failure, leave state unchanged. -/
def generateKey (s : SessionState) (o : HttpOutcome KeyData) : OpResult :=
  let r := generate_api_key_api o
  match r.1 with
  | some kd =>
      { st := { s with generated_api_key := some kd.key_value },
        msgs := [Msg.info ("Generating a new API Key... This will " ++
                   "invalidate any old keys for this user."),
                 Msg.success "API Key generated successfully!"],
        calls := [GatewayCall.generateApiKey s.access_token] }
  | none =>
      { st := s,
        msgs := [Msg.info ("Generating a new API Key... This will " ++
                   "invalidate any old keys for this user."),
                 Msg.error ("Failed to generate API Key: " ++ pyStr r.2)],
        calls := [GatewayCall.generateApiKey s.access_token] }

/-- Access Protected Data button handler (src lines 171-179): surface the
payload or the error; never touch the session state. -/
def testProtectedAccess (s : SessionState) (o : HttpOutcome ProtectedData) :
    OpResult :=
  let r := get_protected_data_api o
  match r.1 with
  | some pd =>
      { st := s,
        msgs := [Msg.info
                   "Attempting to access protected data using the API Key...",
                 Msg.success "Successfully accessed protected data!",
                 Msg.jsonOut pd.payload],
        calls := [GatewayCall.apiKeyProtected s.generated_api_key] }
  | none =>
      { st := s,
        msgs := [Msg.info
                   "Attempting to access protected data using the API Key...",
                 Msg.error ("Failed to access protected data: " ++ pyStr r.2),
                 Msg.warning ("This could be due to an invalid/expired key, " ++
                   "or the backend is not running. Try generating a new " ++
                   "key or checking the backend server.")],
        calls := [GatewayCall.apiKeyProtected s.generated_api_key] }

/-- Logout button handler (src lines 182-188): clear all four fields,
issue no request. -/
def logoutOp (s : SessionState) : OpResult :=
  { st := { s with logged_in := false, username := none, access_token := none,
                   generated_api_key := none },
    msgs := [Msg.info "You have been logged out."],
    calls := [] }

/-- Register submit branch (src lines 202-211): reject empty fields
without a request; otherwise call register and surface the result; the
session state is never changed. -/
def submitRegister (s : SessionState) (u p : String)
    (o : HttpOutcome RegisterData) : OpResult :=
  if u = "" ∨ p = "" then
    { st := s,
      msgs := [Msg.warning "Please enter both username and password."],
      calls := [] }
  else
    let r := register_user_api o
    match r.1 with
    | some ud =>
        { st := s,
          msgs := [Msg.info "Attempting to register...",
                   Msg.success ("User " ++ apos ++ ud.username ++ apos ++
                     " registered successfully! You can now log in.")],
          calls := [GatewayCall.register u p] }
    | none =>
        { st := s,
          msgs := [Msg.info "Attempting to register...",
                   Msg.error ("Registration failed: " ++ pyStr r.2)],
          calls := [GatewayCall.register u p] }

/-- Login submit branch (src lines 213-231): reject empty fields without a
request; otherwise call login, and on success store the token and verify
it with a fetch of the current user.  Only when both calls succeed is
`logged_in` set; when the verification fails the just-stored token is
cleared again and a dedicated message is surfaced. -/
def submitLogin (s : SessionState) (u p : String)
    (o1 : HttpOutcome TokenData) (o2 : HttpOutcome UserInfo) : OpResult :=
  if u = "" ∨ p = "" then
    { st := s,
      msgs := [Msg.warning "Please enter both username and password."],
      calls := [] }
  else
    let r1 := login_user_api o1
    match r1.1 with
    | some td =>
        let s1 := { s with access_token := some td.access_token }
        let r2 := get_current_user_api o2
        match r2.1 with
        | some ui =>
            { st := { s1 with logged_in := true, username := some ui.username },
              msgs := [Msg.info "Attempting to log in...",
                       Msg.success ("Logged in as " ++ ui.username ++ "!")],
              calls := [GatewayCall.token u p,
                        GatewayCall.usersMe s1.access_token] }
        | none =>
            { st := { s1 with access_token := none },
              msgs := [Msg.info "Attempting to log in...",
                       Msg.error ("Login successful, but failed to retrieve " ++
                         "user info: " ++ pyStr r2.2 ++ ". Please try again.")],
              calls := [GatewayCall.token u p,
                        GatewayCall.usersMe s1.access_token] }
    | none =>
        { st := s,
          msgs := [Msg.info "Attempting to log in...",
                   Msg.error ("Login failed: " ++ pyStr r1.2)],
          calls := [GatewayCall.token u p] }

/-- One user intent together with the backend outcome(s) of the request(s)
it issues. -/
inductive Event where
  | registerEv (u p : String) (o : HttpOutcome RegisterData)
  | loginEv (u p : String) (o1 : HttpOutcome TokenData) (o2 : HttpOutcome UserInfo)
  | refreshEv (o : HttpOutcome UserInfo)
  | genKeyEv (o : HttpOutcome KeyData)
  | testEv (o : HttpOutcome ProtectedData)
  | logoutEv
deriving DecidableEq, Repr

/-- One step of the UI: a handler fires only when its widget is rendered.
The form (register/login) renders only when `logged_in` is false
(src line 190); refresh, generate and logout render only when `logged_in`
is true (src line 94); the protected-data button additionally requires a
truthy `generated_api_key` (src line 167). -/
def step (s : SessionState) (e : Event) : SessionState :=
  match e with
  | .registerEv u p o => if s.logged_in then s else (submitRegister s u p o).st
  | .loginEv u p o1 o2 => if s.logged_in then s else (submitLogin s u p o1 o2).st
  | .refreshEv o => if s.logged_in then (refreshProfile s o).st else s
  | .genKeyEv o => if s.logged_in then (generateKey s o).st else s
  | .testEv o =>
      if s.logged_in && pyTruthy s.generated_api_key
      then (testProtectedAccess s o).st else s
  | .logoutEv => if s.logged_in then (logoutOp s).st else s

/-- The state after a sequence of events starting from the initial state. -/
def run (es : List Event) : SessionState := es.foldl step initState

/-- The session-state invariant: authenticated implies a stored token, and
a stored username exactly when authenticated. -/
def SessionInv (s : SessionState) : Prop :=
  (s.logged_in = true → s.access_token.isSome = true) ∧
  (s.username.isSome = true ↔ s.logged_in = true)

/-- A sample authenticated state without an API key. -/
def sAuth : SessionState :=
  { logged_in := true, username := some "alice", access_token := some "T1",
    generated_api_key := none }

/-- A sample authenticated state holding an API key. -/
def sKeyReady : SessionState :=
  { logged_in := true, username := some "alice", access_token := some "T1",
    generated_api_key := some "K1" }

/-- A fully successful login event. -/
def okLoginTrace : List Event :=
  [Event.loginEv "alice" "pw" (HttpOutcome.ok { access_token := "T1" })
    (HttpOutcome.ok { username := "alice" })]

/-- A login whose token response carries the empty string as token, with a
successful verification step. -/
def emptyTokenTrace : List Event :=
  [Event.loginEv "alice" "pw" (HttpOutcome.ok { access_token := "" })
    (HttpOutcome.ok { username := "alice" })]

/-- Successful login, successful key generation, then a profile refresh
rejected by the backend. -/
def staleKeyTrace : List Event :=
  [Event.loginEv "alice" "pw" (HttpOutcome.ok { access_token := "T1" })
    (HttpOutcome.ok { username := "alice" }),
   Event.genKeyEv (HttpOutcome.ok { key_value := "K1" }),
   Event.refreshEv (HttpOutcome.requestException "401 Unauthorized")]

/-! Helper lemmas. -/

theorem authStatus_authenticated_iff (s : SessionState) :
    s.authStatus = AuthStatus.AUTHENTICATED ↔ s.logged_in = true := by
  cases hb : s.logged_in <;> simp [SessionState.authStatus, hb]

theorem authStatus_anonymous_iff (s : SessionState) :
    s.authStatus = AuthStatus.ANONYMOUS ↔ s.logged_in = false := by
  cases hb : s.logged_in <;> simp [SessionState.authStatus, hb]

theorem submitRegister_st (s : SessionState) (u p : String)
    (o : HttpOutcome RegisterData) : (submitRegister s u p o).st = s := by
  unfold submitRegister
  split
  · rfl
  · cases o <;> rfl

theorem testProtectedAccess_st (s : SessionState) (o : HttpOutcome ProtectedData) :
    (testProtectedAccess s o).st = s := by
  cases o <;> rfl

theorem append_ne_of_take_ne (a b x y : List Char) (n : Nat)
    (ha : n ≤ a.length) (hb : n ≤ b.length)
    (h : a.take n ≠ b.take n) : a ++ x ≠ b ++ y := by
  intro he
  apply h
  have ht := congrArg (List.take n) he
  rwa [List.take_append_of_le_length ha, List.take_append_of_le_length hb] at ht

theorem verification_msg_ne_login_failed (ue e : String) :
    ("Login successful, but failed to retrieve user info: " ++ ue ++
      ". Please try again.") ≠ ("Login failed: " ++ e) := by
  intro he
  have hd := congrArg String.data he
  simp only [String.data_append] at hd
  rw [List.append_assoc] at hd
  have ht := congrArg (List.take 14) hd
  rw [List.take_append_of_le_length (by decide),
      List.take_append_of_le_length (by decide)] at ht
  exact absurd ht (by decide)

theorem sessionInv_step (s : SessionState) (e : Event) (h : SessionInv s) :
    SessionInv (step s e) := by
  obtain ⟨h1, h2⟩ := h
  cases e with
  | registerEv u p o =>
      simp only [step]
      by_cases hli : s.logged_in = true
      · rw [if_pos hli]; exact ⟨h1, h2⟩
      · rw [if_neg hli, submitRegister_st]; exact ⟨h1, h2⟩
  | loginEv u p o1 o2 =>
      simp only [step]
      by_cases hli : s.logged_in = true
      · rw [if_pos hli]; exact ⟨h1, h2⟩
      · rw [if_neg hli]
        by_cases hc : u = "" ∨ p = ""
        · simp only [submitLogin, if_pos hc]
          exact ⟨h1, h2⟩
        · cases o1 with
          | ok td =>
              cases o2 with
              | ok ui =>
                  simp only [submitLogin, if_neg hc]
                  exact ⟨fun _ => rfl, Iff.rfl⟩
              | requestException d =>
                  simp only [submitLogin, if_neg hc]
                  exact ⟨fun hx => absurd hx hli, h2⟩
              | otherException d =>
                  simp only [submitLogin, if_neg hc]
                  exact ⟨fun hx => absurd hx hli, h2⟩
          | requestException d =>
              simp only [submitLogin, if_neg hc]
              exact ⟨h1, h2⟩
          | otherException d =>
              simp only [submitLogin, if_neg hc]
              exact ⟨h1, h2⟩
  | refreshEv o =>
      simp only [step]
      by_cases hli : s.logged_in = true
      · rw [if_pos hli]
        cases o with
        | ok ui => exact ⟨h1, h2⟩
        | requestException d =>
            exact ⟨fun hx => Bool.noConfusion hx, Iff.rfl⟩
        | otherException d =>
            exact ⟨fun hx => Bool.noConfusion hx, Iff.rfl⟩
      · rw [if_neg hli]; exact ⟨h1, h2⟩
  | genKeyEv o =>
      simp only [step]
      by_cases hli : s.logged_in = true
      · rw [if_pos hli]
        cases o with
        | ok kd => exact ⟨h1, h2⟩
        | requestException d => exact ⟨h1, h2⟩
        | otherException d => exact ⟨h1, h2⟩
      · rw [if_neg hli]; exact ⟨h1, h2⟩
  | testEv o =>
      simp only [step]
      by_cases hg : (s.logged_in && pyTruthy s.generated_api_key) = true
      · rw [if_pos hg, testProtectedAccess_st]; exact ⟨h1, h2⟩
      · rw [if_neg hg]; exact ⟨h1, h2⟩
  | logoutEv =>
      simp only [step]
      by_cases hli : s.logged_in = true
      · rw [if_pos hli]; exact ⟨fun hx => Bool.noConfusion hx, Iff.rfl⟩
      · rw [if_neg hli]; exact ⟨h1, h2⟩

theorem sessionInv_foldl (es : List Event) :
    ∀ s : SessionState, SessionInv s → SessionInv (es.foldl step s) := by
  induction es with
  | nil => exact fun s hs => hs
  | cons e es ih => exact fun s hs => ih (step s e) (sessionInv_step s e hs)

theorem sessionInv_run (es : List Event) : SessionInv (run es) :=
  sessionInv_foldl es initState ⟨fun hli => Bool.noConfusion hli, Iff.rfl⟩

/-! Claims. -/

/-- Claim C1: `submitLogin` transitions the session to `AUTHENTICATED` if
and only if both the login call and the subsequent `fetchCurrentUser`
verification call succeed; whenever login succeeds but the verification
fails, the dedicated partial-failure message is surfaced (distinct from the
plain login-failure message for every error text), the just-received access
token is cleared, and the final state remains `ANONYMOUS`. -/
theorem submitLogin_roundtrip (s : SessionState) (u p : String)
    (o1 : HttpOutcome TokenData) (o2 : HttpOutcome UserInfo)
    (hs : s.authStatus = AuthStatus.ANONYMOUS) (hu : u ≠ "") (hp : p ≠ "") :
    ((submitLogin s u p o1 o2).st.authStatus = AuthStatus.AUTHENTICATED ↔
      (o1.isOk = true ∧ o2.isOk = true)) ∧
    (o1.isOk = true → o2.isOk = false →
      (submitLogin s u p o1 o2).st.authStatus = AuthStatus.ANONYMOUS ∧
      (submitLogin s u p o1 o2).st.access_token = none ∧
      (submitLogin s u p o1 o2).msgs =
        [Msg.info "Attempting to log in...",
         Msg.error ("Login successful, but failed to retrieve user info: " ++
           pyStr (get_current_user_api o2).2 ++ ". Please try again.")] ∧
      (∀ e : String,
        ("Login successful, but failed to retrieve user info: " ++
          pyStr (get_current_user_api o2).2 ++ ". Please try again.") ≠
        ("Login failed: " ++ e))) := by
  have hli : s.logged_in = false := (authStatus_anonymous_iff s).mp hs
  have hc : ¬(u = "" ∨ p = "") := by
    rintro (hx | hx)
    exacts [hu hx, hp hx]
  cases o1 with
  | ok td =>
      cases o2 with
      | ok ui =>
          simp only [submitLogin, if_neg hc, login_user_api, get_current_user_api]
          refine ⟨?_, fun _ hbad => Bool.noConfusion hbad⟩
          simp [SessionState.authStatus, HttpOutcome.isOk]
      | requestException d =>
          refine ⟨?_, fun _ _ => ⟨?_, ?_, ?_,
            fun e => verification_msg_ne_login_failed _ e⟩⟩
          · simp only [submitLogin, if_neg hc, login_user_api, get_current_user_api]
            simp [SessionState.authStatus, HttpOutcome.isOk, hli]
          · simp only [submitLogin, if_neg hc, login_user_api, get_current_user_api]
            simp [SessionState.authStatus, hli]
          · simp only [submitLogin, if_neg hc]
            rfl
          · simp only [submitLogin, if_neg hc]
            rfl
      | otherException d =>
          refine ⟨?_, fun _ _ => ⟨?_, ?_, ?_,
            fun e => verification_msg_ne_login_failed _ e⟩⟩
          · simp only [submitLogin, if_neg hc, login_user_api, get_current_user_api]
            simp [SessionState.authStatus, HttpOutcome.isOk, hli]
          · simp only [submitLogin, if_neg hc, login_user_api, get_current_user_api]
            simp [SessionState.authStatus, hli]
          · simp only [submitLogin, if_neg hc]
            rfl
          · simp only [submitLogin, if_neg hc]
            rfl
  | requestException d =>
      simp only [submitLogin, if_neg hc, login_user_api]
      exact ⟨by simp [hs, HttpOutcome.isOk], fun h1 _ => Bool.noConfusion h1⟩
  | otherException d =>
      simp only [submitLogin, if_neg hc, login_user_api]
      exact ⟨by simp [hs, HttpOutcome.isOk], fun h1 _ => Bool.noConfusion h1⟩

/-- Witness for C1 at a concrete partially failing login: the login call
succeeds, the verification call fails. -/
theorem submitLogin_roundtrip_witness :
    initState.authStatus = AuthStatus.ANONYMOUS ∧
    ((submitLogin initState "alice" "pw" (HttpOutcome.ok { access_token := "T1" })
        (HttpOutcome.requestException "boom")).st.authStatus =
          AuthStatus.ANONYMOUS ∧
      (submitLogin initState "alice" "pw" (HttpOutcome.ok { access_token := "T1" })
        (HttpOutcome.requestException "boom")).st.access_token = none) :=
  ⟨rfl,
    ((submitLogin_roundtrip initState "alice" "pw"
        (HttpOutcome.ok { access_token := "T1" })
        (HttpOutcome.requestException "boom") rfl (by decide) (by decide)).2
      rfl rfl).1,
    ((submitLogin_roundtrip initState "alice" "pw"
        (HttpOutcome.ok { access_token := "T1" })
        (HttpOutcome.requestException "boom") rfl (by decide) (by decide)).2
      rfl rfl).2.1⟩

/-- Claim C2 (amended): in every state reachable from the initial
`ANONYMOUS` state by any sequence of operations, `authStatus =
AUTHENTICATED` implies `accessToken` is non-null, and `username` is
non-null if and only if `authStatus = AUTHENTICATED`.  (The stored token is
whatever string the login response carried, so it need not be a non-empty
string: see `authenticated_with_empty_token`.) -/
theorem run_session_invariant (es : List Event) :
    ((run es).authStatus = AuthStatus.AUTHENTICATED →
      (run es).access_token ≠ none) ∧
    ((run es).username ≠ none ↔ (run es).authStatus = AuthStatus.AUTHENTICATED) := by
  obtain ⟨h1, h2⟩ := sessionInv_run es
  constructor
  · intro ha
    exact Option.isSome_iff_ne_none.mp
      (h1 ((authStatus_authenticated_iff (run es)).mp ha))
  · rw [← Option.isSome_iff_ne_none, authStatus_authenticated_iff]
    exact h2

/-- Witness for C2 at a concrete successful login trace. -/
theorem run_session_invariant_witness :
    (run okLoginTrace).access_token ≠ none ∧
    ((run okLoginTrace).username ≠ none ↔
      (run okLoginTrace).authStatus = AuthStatus.AUTHENTICATED) :=
  ⟨(run_session_invariant okLoginTrace).1 rfl,
   (run_session_invariant okLoginTrace).2⟩

/-- Counterexample to C2 as literally stated: the login response may carry
the empty string as `access_token`; the client stores it unchecked and,
when the verification call succeeds, reaches `AUTHENTICATED` with an empty
(though non-null) token. -/
theorem authenticated_with_empty_token :
    (run emptyTokenTrace).authStatus = AuthStatus.AUTHENTICATED ∧
    (run emptyTokenTrace).access_token = some "" := ⟨rfl, rfl⟩

/-- Claim C3: when `refreshProfile` is invoked from an authenticated state
and the `fetchCurrentUser` call fails, the handler performs an implicit
logout: it clears `accessToken` and `username`, transitions to `ANONYMOUS`,
and surfaces the session-might-have-expired error message — without any
explicit logout action. -/
theorem refreshProfile_implicit_logout (s : SessionState)
    (o : HttpOutcome UserInfo) (_hs : s.authStatus = AuthStatus.AUTHENTICATED)
    (ho : o.isOk = false) :
    (refreshProfile s o).st.authStatus = AuthStatus.ANONYMOUS ∧
    (refreshProfile s o).st.access_token = none ∧
    (refreshProfile s o).st.username = none ∧
    (refreshProfile s o).msgs =
      [Msg.error ("Failed to fetch profile: " ++
        pyStr (get_current_user_api o).2 ++
        ". Your session might have expired. Please log in again.")] := by
  cases o with
  | ok ui => exact Bool.noConfusion ho
  | requestException d => exact ⟨rfl, rfl, rfl, rfl⟩
  | otherException d => exact ⟨rfl, rfl, rfl, rfl⟩

/-- Witness for C3 at a concrete authenticated state and rejected token. -/
theorem refreshProfile_implicit_logout_witness :
    (refreshProfile sAuth (HttpOutcome.requestException "401")).st.authStatus =
        AuthStatus.ANONYMOUS ∧
    (refreshProfile sAuth (HttpOutcome.requestException "401")).st.access_token = none ∧
    (refreshProfile sAuth (HttpOutcome.requestException "401")).st.username = none ∧
    (refreshProfile sAuth (HttpOutcome.requestException "401")).msgs =
      [Msg.error ("Failed to fetch profile: " ++
        pyStr (get_current_user_api (HttpOutcome.requestException "401")).2 ++
        ". Your session might have expired. Please log in again.")] :=
  refreshProfile_implicit_logout sAuth (HttpOutcome.requestException "401") rfl rfl

/-- Claim C4: `logout`, invoked from any authenticated or key-ready state,
unconditionally yields `authStatus = ANONYMOUS` with `accessToken`,
`username` and `apiKey` all cleared, and issues no backend call. -/
theorem logout_clears_session (s : SessionState) (_hs : s.logged_in = true) :
    (logoutOp s).st.authStatus = AuthStatus.ANONYMOUS ∧
    (logoutOp s).st.access_token = none ∧
    (logoutOp s).st.username = none ∧
    (logoutOp s).st.generated_api_key = none ∧
    (logoutOp s).calls = [] :=
  ⟨rfl, rfl, rfl, rfl, rfl⟩

/-- Witness for C4 at a concrete key-ready state. -/
theorem logout_clears_session_witness :
    (logoutOp sKeyReady).st.authStatus = AuthStatus.ANONYMOUS ∧
    (logoutOp sKeyReady).st.access_token = none ∧
    (logoutOp sKeyReady).st.username = none ∧
    (logoutOp sKeyReady).st.generated_api_key = none ∧
    (logoutOp sKeyReady).calls = [] :=
  logout_clears_session sKeyReady rfl

/-- Claim C5: for every input in which the username or the password is
empty, `submitRegister` and `submitLogin` issue no network call, report a
validation warning, and leave the session state unchanged. -/
theorem empty_fields_no_network_call (s : SessionState) (u p : String)
    (oR : HttpOutcome RegisterData) (o1 : HttpOutcome TokenData)
    (o2 : HttpOutcome UserInfo) (h : u = "" ∨ p = "") :
    submitRegister s u p oR =
      { st := s,
        msgs := [Msg.warning "Please enter both username and password."],
        calls := [] } ∧
    submitLogin s u p o1 o2 =
      { st := s,
        msgs := [Msg.warning "Please enter both username and password."],
        calls := [] } := by
  constructor
  · simp [submitRegister, if_pos h]
  · simp [submitLogin, if_pos h]

/-- Witness for C5 at a concrete empty username. -/
theorem empty_fields_no_network_call_witness :
    submitRegister initState "" "pw" (HttpOutcome.ok { username := "alice" }) =
      { st := initState,
        msgs := [Msg.warning "Please enter both username and password."],
        calls := [] } ∧
    submitLogin initState "" "pw" (HttpOutcome.ok { access_token := "T1" })
        (HttpOutcome.ok { username := "alice" }) =
      { st := initState,
        msgs := [Msg.warning "Please enter both username and password."],
        calls := [] } :=
  empty_fields_no_network_call initState "" "pw"
    (HttpOutcome.ok { username := "alice" })
    (HttpOutcome.ok { access_token := "T1" })
    (HttpOutcome.ok { username := "alice" }) (Or.inl rfl)

/-- Claim C6: `generateKey`, invoked from an authenticated (or key-ready)
state: on success it overwrites `apiKey` with the newly returned key and
transitions to `KEY_READY`; on failure the session state is unchanged and
the error is surfaced. -/
theorem generateKey_overwrites_key (s : SessionState) (o : HttpOutcome KeyData)
    (hs : s.logged_in = true) :
    (∀ kd : KeyData,
      (generateKey s (HttpOutcome.ok kd)).st =
        { s with generated_api_key := some kd.key_value } ∧
      (generateKey s (HttpOutcome.ok kd)).st.keyReady = true) ∧
    (o.isOk = false →
      (generateKey s o).st = s ∧
      (generateKey s o).msgs =
        [Msg.info ("Generating a new API Key... This will invalidate any " ++
           "old keys for this user."),
         Msg.error ("Failed to generate API Key: " ++
           pyStr (generate_api_key_api o).2)]) := by
  refine ⟨fun kd => ⟨rfl, by
    simp only [SessionState.keyReady, Bool.and_eq_true]
    exact ⟨hs, rfl⟩⟩, ?_⟩
  cases o with
  | ok kd => exact fun hbad => Bool.noConfusion hbad
  | requestException d => exact fun _ => ⟨rfl, rfl⟩
  | otherException d => exact fun _ => ⟨rfl, rfl⟩

/-- Witness for C6 at a concrete authenticated state, one successful and
one failing key generation. -/
theorem generateKey_overwrites_key_witness :
    ((generateKey sAuth (HttpOutcome.ok { key_value := "K1" })).st =
        { sAuth with generated_api_key := some "K1" } ∧
      (generateKey sAuth (HttpOutcome.ok { key_value := "K1" })).st.keyReady = true) ∧
    ((generateKey sAuth (HttpOutcome.requestException "500")).st = sAuth ∧
      (generateKey sAuth (HttpOutcome.requestException "500")).msgs =
        [Msg.info ("Generating a new API Key... This will invalidate any " ++
           "old keys for this user."),
         Msg.error ("Failed to generate API Key: " ++
           pyStr (generate_api_key_api (HttpOutcome.requestException "500")).2)]) :=
  ⟨(generateKey_overwrites_key sAuth (HttpOutcome.requestException "500") rfl).1
      { key_value := "K1" },
   (generateKey_overwrites_key sAuth (HttpOutcome.requestException "500") rfl).2 rfl⟩

/-- Claim C7: `testProtectedAccess`, invoked from a key-ready state,
surfaces the result or error of the protected-resource call without
changing any session-state field; in particular a failure does not clear
`apiKey`. -/
theorem testProtectedAccess_preserves_state (s : SessionState)
    (o : HttpOutcome ProtectedData) (_hs : s.keyReady = true) :
    (testProtectedAccess s o).st = s ∧
    (testProtectedAccess s o).st.generated_api_key = s.generated_api_key ∧
    (o.isOk = false →
      (testProtectedAccess s o).msgs =
        [Msg.info "Attempting to access protected data using the API Key...",
         Msg.error ("Failed to access protected data: " ++
           pyStr (get_protected_data_api o).2),
         Msg.warning ("This could be due to an invalid/expired key, or the " ++
           "backend is not running. Try generating a new key or checking " ++
           "the backend server.")]) ∧
    (∀ pd : ProtectedData,
      (testProtectedAccess s (HttpOutcome.ok pd)).msgs =
        [Msg.info "Attempting to access protected data using the API Key...",
         Msg.success "Successfully accessed protected data!",
         Msg.jsonOut pd.payload]) := by
  refine ⟨testProtectedAccess_st s o, ?_, ?_, fun pd => rfl⟩
  · rw [testProtectedAccess_st]
  · cases o with
    | ok pd => exact fun hbad => Bool.noConfusion hbad
    | requestException d => exact fun _ => rfl
    | otherException d => exact fun _ => rfl

/-- Witness for C7 at a concrete key-ready state and failing access. -/
theorem testProtectedAccess_preserves_state_witness :
    (testProtectedAccess sKeyReady (HttpOutcome.requestException "403")).st =
        sKeyReady ∧
    (testProtectedAccess sKeyReady (HttpOutcome.requestException "403")).st.generated_api_key =
        sKeyReady.generated_api_key :=
  ⟨(testProtectedAccess_preserves_state sKeyReady
      (HttpOutcome.requestException "403") rfl).1,
   (testProtectedAccess_preserves_state sKeyReady
      (HttpOutcome.requestException "403") rfl).2.1⟩

/-- Claim C8 (code bug): the claim says every gateway failure message
passes the underlying failure's description through verbatim.  In
`get_current_user_api` (and likewise in `generate_api_key_api` and
`get_protected_data_api`, and in the generic handler of `login_user_api`)
the braces of the f-string were omitted, so the surfaced message ends in
the literal letter `e` and drops the description; `register_user_api`
shows the evidently intended, properly interpolated message. -/
theorem gateway_error_message_drops_description :
    (∀ d : String,
      (get_current_user_api (HttpOutcome.requestException d)).2 =
        some "Error connecting to backend or invalid response: e") ∧
    (get_current_user_api (HttpOutcome.requestException "Connection refused")).2 ≠
      some "Error connecting to backend or invalid response: Connection refused" ∧
    (∀ d : String,
      (register_user_api (HttpOutcome.requestException d)).2 =
        some ("Error connecting to backend or invalid response: " ++ d)) :=
  ⟨fun _ => rfl, by decide, fun _ => rfl⟩

/-- Claim C9: `submitRegister` with non-empty fields leaves the session in
`ANONYMOUS` on both outcomes: on success it surfaces a confirmation message
without logging the user in, on failure it surfaces the error; in neither
case does any session-state field change. -/
theorem submitRegister_stays_anonymous (s : SessionState) (u p : String)
    (o : HttpOutcome RegisterData) (hs : s.authStatus = AuthStatus.ANONYMOUS)
    (hu : u ≠ "") (hp : p ≠ "") :
    (submitRegister s u p o).st = s ∧
    (submitRegister s u p o).st.authStatus = AuthStatus.ANONYMOUS ∧
    (∀ ud : RegisterData,
      (submitRegister s u p (HttpOutcome.ok ud)).msgs =
        [Msg.info "Attempting to register...",
         Msg.success ("User " ++ apos ++ ud.username ++ apos ++
           " registered successfully! You can now log in.")]) ∧
    (o.isOk = false →
      (submitRegister s u p o).msgs =
        [Msg.info "Attempting to register...",
         Msg.error ("Registration failed: " ++ pyStr (register_user_api o).2)]) := by
  have hc : ¬(u = "" ∨ p = "") := by
    rintro (hx | hx)
    exacts [hu hx, hp hx]
  refine ⟨submitRegister_st s u p o, ?_, fun ud => ?_, ?_⟩
  · rw [submitRegister_st]
    exact hs
  · simp only [submitRegister, if_neg hc]
    rfl
  · cases o with
    | ok ud => exact fun hbad => Bool.noConfusion hbad
    | requestException d =>
        intro _
        simp only [submitRegister, if_neg hc]
        rfl
    | otherException d =>
        intro _
        simp only [submitRegister, if_neg hc]
        rfl

/-- Witness for C9 at a concrete failing registration. -/
theorem submitRegister_stays_anonymous_witness :
    (submitRegister initState "alice" "pw"
        (HttpOutcome.requestException "down")).st = initState ∧
    (submitRegister initState "alice" "pw"
        (HttpOutcome.requestException "down")).msgs =
      [Msg.info "Attempting to register...",
       Msg.error ("Registration failed: " ++
         pyStr (register_user_api (HttpOutcome.requestException "down")).2)] :=
  ⟨(submitRegister_stays_anonymous initState "alice" "pw"
      (HttpOutcome.requestException "down") rfl (by decide) (by decide)).1,
   (submitRegister_stays_anonymous initState "alice" "pw"
      (HttpOutcome.requestException "down") rfl (by decide) (by decide)).2.2.2 rfl⟩

/-- Claim C10: the implicit logout performed by a failing profile refresh
leaves `generated_api_key` unchanged, and a state with `authStatus =
ANONYMOUS` and a non-null `apiKey` is reachable, so a stale API key
survives session expiry until an explicit logout clears it. -/
theorem implicit_logout_keeps_apiKey :
    (∀ (s : SessionState) (o : HttpOutcome UserInfo),
      (refreshProfile s o).st.generated_api_key = s.generated_api_key) ∧
    (run staleKeyTrace).authStatus = AuthStatus.ANONYMOUS ∧
    (run staleKeyTrace).generated_api_key = some "K1" := by
  refine ⟨fun s o => ?_, rfl, rfl⟩
  cases o <;> rfl

end StreamlitApp
